import Mathlib

/-!
Verification of the iOS Xcode command backend
(`src/briefcase/platforms/iOS/xcode.py`).

The embedding models, faithfully to the Python source:
* the simulator catalog returned by `get_simulators` as an insertion-ordered
  association list (Python dicts preserve insertion order);
* `iOSXcodeMixin.select_target_device`, including the interactive prompts it
  issues via `select_option`;
* the device-state polling loop, the boot step and the
  open/uninstall/install/launch pipeline of `iOSXcodeRunCommand.run_app`,
  with every external command invocation recorded in a trace;
* `iOSXcodeBuildCommand.build_app` and the exact `xcodebuild` argument vector
  it constructs.

External toolchain outcomes (exit statuses of `subprocess.run`, the sequence
of device states reported by `get_device_state`) are inputs, collected in a
`World` structure.
-/

set_option autoImplicit false

namespace IOSXcode

/-- Modelled from the spec: the `DeviceState` enum lives in
`briefcase/integrations/xcode.py`, which is not among the sources; §4.3 of the
spec lists its members as `SHUTDOWN`, `BOOTED`, `BOOTING` (transient),
`SHUTTING_DOWN` (transient) and `UNKNOWN`.  The source under verification
only ever tests membership in the set containing `SHUTDOWN` and `BOOTED`. -/
inductive DeviceState where
  | shutdown
  | booted
  | booting
  | shuttingDown
  | unknown
  deriving DecidableEq, Repr

/-- `devices`: the per-iOS-version dict mapping device UDID to device name,
in insertion order. -/
abbrev Devices := List (String × String)

/-- The result of `get_simulators('iOS')`: a dict mapping iOS version to its
device dict, in insertion order. -/
abbrev Catalog := List (String × Devices)

/-- One invocation of the interactive `select_option` prompt, together with
the option dict (choice key, display label) passed to it. -/
inductive Prompt where
  | selectiOSVersion (options : List (String × String))
  | selectSimDevice (options : List (String × String))
  deriving DecidableEq, Repr

/-- The distinct `BriefcaseCommandError` raise sites of
`select_target_device`, plus the Python `KeyError` that a dict subscript
would raise if the injected selector returned a key that is not among the
options it was shown. -/
inductive ResolveError where
  | unknownTarget (udid : String)
  | noRuntimes
  | noDevices (iOSVersion : String)
  | keyError
  deriving DecidableEq, Repr

/-- The injected interactive selector (`select_option` from
`briefcase.console`): given the option dict, it returns one choice key. -/
structure Selector where
  pickRuntime : List (String × String) → String
  pickDevice : List (String × String) → String

/-- A selector that always answers with the first choice key; used to
instantiate theorems at concrete inputs. -/
def firstSelector : Selector where
  pickRuntime := fun options => (options.map Prod.fst).headI
  pickDevice := fun options => (options.map Prod.fst).headI

/-- The `if self.options.device:` branch of `select_target_device`:
iterate over `simulators.items()` in order and return the first
`(iOS_version, device_name)` pair whose device dict contains the UDID. -/
def findUdid (simulators : Catalog) (udid : String) : Option (String × String) :=
  match simulators with
  | [] => none
  | (iOSVersion, devices) :: rest =>
      match List.lookup udid devices with
      | some device => some (iOSVersion, device)
      | none => findUdid rest udid

/-- The iOS-version stage of `select_target_device`: error on an empty
catalog, auto-select a sole version, otherwise prompt. -/
def runtimeStage (sel : Selector) (simulators : Catalog) :
    List Prompt × Except ResolveError String :=
  if simulators.length = 0 then
    ([], .error .noRuntimes)
  else if simulators.length = 1 then
    ([], .ok (simulators.map Prod.fst).headI)
  else
    let options := simulators.map fun p => (p.1, p.1)
    ([.selectiOSVersion options], .ok (sel.pickRuntime options))

/-- The device stage of `select_target_device`: error when the chosen
version has no devices, auto-select a sole device, otherwise prompt with the
device dict itself (UDID keys, name labels). -/
def deviceStage (sel : Selector) (iOSVersion : String) (devices : Devices) :
    List Prompt × Except ResolveError String :=
  if devices.length = 0 then
    ([], .error (.noDevices iOSVersion))
  else if devices.length = 1 then
    ([], .ok (devices.map Prod.fst).headI)
  else
    ([.selectSimDevice devices], .ok (sel.pickDevice devices))

/-- `iOSXcodeMixin.select_target_device`, returning the prompts issued and
either the `(udid, iOS_version, device_name)` triple or the error raised. -/
def selectTargetDevice (sel : Selector) (simulators : Catalog)
    (requested : Option String) :
    List Prompt × Except ResolveError (String × String × String) :=
  match requested with
  | some udid =>
      match findUdid simulators udid with
      | some (iOSVersion, device) => ([], .ok (udid, iOSVersion, device))
      | none => ([], .error (.unknownTarget udid))
  | none =>
      match runtimeStage sel simulators with
      | (ps, .error e) => (ps, .error e)
      | (ps, .ok iOSVersion) =>
          match List.lookup iOSVersion simulators with
          | none => (ps, .error .keyError)
          | some devices =>
              match deviceStage sel iOSVersion devices with
              | (ps2, .error e) => (ps ++ ps2, .error e)
              | (ps2, .ok udid) =>
                  match List.lookup udid devices with
                  | none => (ps ++ ps2, .error .keyError)
                  | some device => (ps ++ ps2, .ok (udid, iOSVersion, device))

/-- The app configuration attributes consumed by the commands. -/
structure App where
  name : String
  bundle : String
  formalName : String
  deriving DecidableEq, Repr

/-- `iOSXcodePassiveMixin.bundle_path`: `platform_path / app.formal_name`. -/
def bundle_path (platformPath : String) (app : App) : String :=
  platformPath ++ "/" ++ app.formalName

/-- `iOSXcodePassiveMixin.binary_path`:
`platform_path / formal_name / build / Debug-iphonesimulator / formal_name.app`. -/
def binary_path (platformPath : String) (app : App) : String :=
  platformPath ++ "/" ++ app.formalName ++ "/build/Debug-iphonesimulator/"
    ++ app.formalName ++ ".app"

/-- The `app_identifier` computed in `run_app`:
`'.'.join([app.bundle, app.name])`. -/
def appIdentifier (app : App) : String :=
  app.bundle ++ "." ++ app.name

/-- One external command invocation issued by `run_app` through
`self.subprocess`, with its distinguishing arguments. -/
inductive Cmd where
  | getDeviceState (udid : String)
  | boot (udid : String)
  | openSim (udid : String)
  | uninstall (udid bundleID : String)
  | installApp (udid binaryPath : String)
  | launch (udid bundleID : String)
  deriving DecidableEq, Repr

def Cmd.isBoot : Cmd → Bool
  | .boot _ => true
  | _ => false

def Cmd.isOpenSim : Cmd → Bool
  | .openSim _ => true
  | _ => false

def Cmd.isUninstall : Cmd → Bool
  | .uninstall _ _ => true
  | _ => false

def Cmd.isInstallApp : Cmd → Bool
  | .installApp _ _ => true
  | _ => false

def Cmd.isLaunch : Cmd → Bool
  | .launch _ _ => true
  | _ => false

/-- `true` on the commands of the pipeline that follows a successful boot. -/
def Cmd.afterBoot (c : Cmd) : Bool :=
  c.isOpenSim || c.isUninstall || c.isInstallApp || c.isLaunch

/-- The distinct `BriefcaseCommandError` raise sites of `run_app`, plus the
errors propagated out of `select_target_device`. -/
inductive RunError where
  | resolve (e : ResolveError)
  | deviceBoot (device iOSVersion : String)
  | simulatorOpen (device iOSVersion : String)
  | uninstallFailed (appName : String)
  | installFailed (appName : String)
  | launchFailed (appName : String)
  deriving DecidableEq, Repr

/-- How an invocation of `run_app` ends: normal return, a raised
`BriefcaseCommandError`, or — when the state-polling loop never observes a
stable state within the supplied fuel — still spinning. -/
inductive RunOutcome where
  | ok
  | err (e : RunError)
  | diverged
  deriving DecidableEq, Repr

/-- The external world as `run_app` observes it: the catalog returned by
`get_simulators`, the sequence of states returned by successive
`get_device_state` calls, and the exit status (`true` = exit code 0) of each
`subprocess.run` invocation. -/
structure World where
  simulators : Catalog
  deviceStates : Nat → DeviceState
  bootExit : Bool
  openExit : Bool
  uninstallExit : Bool
  installExit : Bool
  launchExit : Bool

/-- `device_state not in (SHUTDOWN, BOOTED)` is the loop condition of
`run_app`; `stableState` is its negation. -/
def stableState (s : DeviceState) : Bool :=
  s == DeviceState.shutdown || s == DeviceState.booted

/-- The state-polling loop of `run_app`: query `get_device_state`, and while
the state is neither `SHUTDOWN` nor `BOOTED`, sleep and re-query.  The Python
loop is unbounded; `fuel` bounds how many queries the model is allowed to
make, and `none` means the loop was still running after `fuel` queries.
On success it returns the index of the stabilizing query and the state. -/
def pollDeviceState (states : Nat → DeviceState) :
    Nat → Nat → Option (Nat × DeviceState)
  | 0, _ => none
  | fuel + 1, i =>
      if stableState (states i) then some (i, states i)
      else pollDeviceState states fuel (i + 1)

/-- A straight-line sequence of `subprocess.run` calls, each wrapped in a
`try/except` that raises a `BriefcaseCommandError`: every step carries its
command, the exit status the world assigns it (`true` = exit code 0) and the
error raised on failure.  Execution issues commands in order and stops at
the first failure. -/
def runSteps : List (Cmd × Bool × RunError) → List Cmd × Option RunError
  | [] => ([], none)
  | (c, exitOk, e) :: rest =>
      if exitOk then (c :: (runSteps rest).1, (runSteps rest).2)
      else ([c], some e)

/-- The open/uninstall/install/launch tail of `run_app`, in source order. -/
def pipelineSteps (w : World) (app : App) (platformPath : String)
    (udid iOSVersion device : String) : List (Cmd × Bool × RunError) :=
  [ (.openSim udid, w.openExit, .simulatorOpen device iOSVersion),
    (.uninstall udid (appIdentifier app), w.uninstallExit,
      .uninstallFailed app.name),
    (.installApp udid (binary_path platformPath app), w.installExit,
      .installFailed app.name),
    (.launch udid (appIdentifier app), w.launchExit,
      .launchFailed app.name) ]

/-- `iOSXcodeRunCommand.run_app`: resolve the target, wait for a stable
device state, boot if shut down, then open the simulator, uninstall, install
and launch — each `subprocess.run` guarded by a `try/except` that raises a
`BriefcaseCommandError`.  Returns the prompts issued, the trace of external
commands, and the outcome. -/
def run_app (sel : Selector) (w : World) (app : App) (platformPath : String)
    (requested : Option String) (fuel : Nat) :
    List Prompt × List Cmd × RunOutcome :=
  match selectTargetDevice sel w.simulators requested with
  | (ps, .error e) => (ps, [], .err (.resolve e))
  | (ps, .ok (udid, iOSVersion, device)) =>
      match pollDeviceState w.deviceStates fuel 0 with
      | none => (ps, List.replicate fuel (.getDeviceState udid), .diverged)
      | some (i, st) =>
          let queries : List Cmd := List.replicate (i + 1) (.getDeviceState udid)
          if st = DeviceState.shutdown ∧ w.bootExit = false then
            (ps, queries ++ [.boot udid], .err (.deviceBoot device iOSVersion))
          else
            let bootCmds : List Cmd :=
              if st = DeviceState.shutdown then [.boot udid] else []
            let tail := runSteps (pipelineSteps w app platformPath udid iOSVersion device)
            (ps, queries ++ bootCmds ++ tail.1,
              match tail.2 with
              | none => .ok
              | some e => .err e)

/-- The exact `xcodebuild` argument vector constructed by
`iOSXcodeBuildCommand.build_app`. -/
def xcodebuildArgs (platformPath : String) (app : App)
    (device iOSVersion : String) : List String :=
  [ "xcodebuild",
    "-project", bundle_path platformPath app ++ "/" ++ app.formalName ++ ".xcodeproj",
    "-destination",
    "platform=\"iOS Simulator,name=" ++ device ++ ",OS=" ++ iOSVersion ++ "\"",
    "-quiet",
    "-configuration", "Debug",
    "-arch", "x86_64",
    "-sdk", "iphonesimulator",
    "build" ]

/-- The `BriefcaseCommandError` raise site of `build_app`, plus the errors
propagated out of `select_target_device`. -/
inductive BuildError where
  | buildFailed (appName : String)
  | resolve (e : ResolveError)
  deriving DecidableEq, Repr

/-- `iOSXcodeBuildCommand.build_app`: resolve a target with
`select_target_device`, then run `xcodebuild` once with a fixed argument
vector; a non-zero exit raises a `BriefcaseCommandError` naming the app.
Returns the prompts issued, the external invocations made (each an argument
vector), and the outcome. -/
def build_app (sel : Selector) (simulators : Catalog) (requested : Option String)
    (app : App) (platformPath : String) (buildExit : Bool) :
    List Prompt × List (List String) × Except BuildError Unit :=
  match selectTargetDevice sel simulators requested with
  | (ps, .error e) => (ps, [], .error (.resolve e))
  | (ps, .ok (_udid, iOSVersion, device)) =>
      let argv := xcodebuildArgs platformPath app device iOSVersion
      if buildExit then (ps, [argv], .ok ())
      else (ps, [argv], .error (.buildFailed app.name))

/-! ### Helper lemmas -/

theorem findUdid_of_forall_none (u : String) :
    ∀ (cat : Catalog), (∀ p ∈ cat, List.lookup u p.2 = none) →
      findUdid cat u = none := by
  intro cat
  induction cat with
  | nil => intro _; rfl
  | cons hd tl ih =>
      intro h
      have hhd : List.lookup u hd.2 = none := h hd (List.mem_cons_self hd tl)
      have htl : findUdid tl u = none :=
        ih fun p hp => h p (List.mem_cons_of_mem hd hp)
      simp only [findUdid, hhd, htl]

theorem findUdid_first_match (u : String) :
    ∀ (cat : Catalog) (i : Nat) (h : i < cat.length) (d : String),
      List.lookup u (cat.get ⟨i, h⟩).2 = some d →
      (∀ (j : Nat) (hj : j < cat.length), j < i →
        List.lookup u (cat.get ⟨j, hj⟩).2 = none) →
      findUdid cat u = some ((cat.get ⟨i, h⟩).1, d) := by
  intro cat
  induction cat with
  | nil => intro i h; exact absurd h (Nat.not_lt_zero i)
  | cons hd tl ih =>
      intro i h d hfound hbefore
      cases i with
      | zero =>
          simp only [List.get] at hfound ⊢
          simp only [findUdid, hfound]
      | succ i =>
          have h0 : List.lookup u hd.2 = none := by
            have := hbefore 0 (by simp) (Nat.zero_lt_succ i)
            simpa using this
          have htl := ih i (Nat.lt_of_succ_lt_succ h) d
            (by simpa using hfound)
            (fun j hj hji => by
              have := hbefore (j + 1) (Nat.succ_lt_succ hj) (Nat.succ_lt_succ hji)
              simpa using this)
          simp only [findUdid, h0, htl, List.get]

theorem filter_replicate_of_neg {α : Type} (p : α → Bool) (a : α)
    (h : p a = false) : ∀ (n : Nat), (List.replicate n a).filter p = [] := by
  intro n
  induction n with
  | zero => rfl
  | succ n ih => simp [List.replicate, List.filter, h, ih]

theorem runSteps_filter_none (p : Cmd → Bool) :
    ∀ (l : List (Cmd × Bool × RunError)), (∀ s ∈ l, p s.1 = false) →
      (runSteps l).1.filter p = [] := by
  intro l
  induction l with
  | nil => intro _; rfl
  | cons s rest ih =>
      intro h
      obtain ⟨c, exitOk, e⟩ := s
      have hc : p c = false := h (c, exitOk, e) (List.mem_cons_self _ _)
      have hrest := ih fun s hs => h s (List.mem_cons_of_mem _ hs)
      by_cases hx : exitOk = true
      · simp [runSteps, hx, List.filter, hc, hrest]
      · simp [runSteps, hx, List.filter, hc]

theorem runSteps_prefix_full :
    ∀ (l : List (Cmd × Bool × RunError)),
      ∃ t, (runSteps l).1 ++ t = l.map fun s => s.1 := by
  intro l
  induction l with
  | nil => exact ⟨[], rfl⟩
  | cons s rest ih =>
      obtain ⟨c, exitOk, e⟩ := s
      by_cases hx : exitOk = true
      · obtain ⟨t, ht⟩ := ih
        exact ⟨t, by simp [runSteps, hx, ht]⟩
      · exact ⟨rest.map fun s => s.1, by simp [runSteps, hx]⟩

theorem runSteps_none_full :
    ∀ (l : List (Cmd × Bool × RunError)), (runSteps l).2 = none →
      (runSteps l).1 = l.map fun s => s.1 := by
  intro l
  induction l with
  | nil => intro _; rfl
  | cons s rest ih =>
      intro h
      obtain ⟨c, exitOk, e⟩ := s
      by_cases hx : exitOk = true
      · have h2 : (runSteps rest).2 = none := by
          simpa [runSteps, hx] using h
        simp [runSteps, hx, ih h2]
      · simp [runSteps, hx] at h

/-! ### Claim theorems: target resolution -/

/-- C2: for every catalog and requested udid, if some runtime's device
mapping contains the udid then `select_target_device` returns the
(runtime, device) pair of the first runtime containing it in the catalog's
iteration order, with no prompt; if no runtime contains it, it raises the
invalid-UDID error carrying that udid, with no partial or fuzzy matching. -/
theorem requested_udid_resolution (sel : Selector) (cat : Catalog) (u : String) :
    (∀ (i : Nat) (h : i < cat.length) (d : String),
        List.lookup u (cat.get ⟨i, h⟩).2 = some d →
        (∀ (j : Nat) (hj : j < cat.length), j < i →
          List.lookup u (cat.get ⟨j, hj⟩).2 = none) →
        selectTargetDevice sel cat (some u) = ([], .ok (u, (cat.get ⟨i, h⟩).1, d)))
    ∧ ((∀ p ∈ cat, List.lookup u p.2 = none) →
        selectTargetDevice sel cat (some u) = ([], .error (.unknownTarget u))) := by
  constructor
  · intro i h d hfound hbefore
    have hfind := findUdid_first_match u cat i h d hfound hbefore
    simp only [selectTargetDevice, hfind]
  · intro hnone
    have hfind := findUdid_of_forall_none u cat hnone
    simp only [selectTargetDevice, hfind]

theorem requested_udid_resolution_witness :
    selectTargetDevice firstSelector
        [("13.0", [("A", "iPhone 8")]), ("14.0", [("B", "iPhone 11")])]
        (some "B")
      = ([], .ok ("B", "14.0", "iPhone 11")) := by
  have h := (requested_udid_resolution firstSelector
      [("13.0", [("A", "iPhone 8")]), ("14.0", [("B", "iPhone 11")])] "B").1
    1 (by decide) "iPhone 11" (by decide)
    (by
      intro j hj hji
      have hj0 : j = 0 := by omega
      subst hj0
      rfl)
  simpa using h

/-- C9: when a udid is requested, `select_target_device` never prompts, its
result does not depend on the interactive selector, every error it can raise
is the invalid-UDID error for that udid, and in particular against an empty
catalog it raises the invalid-UDID error rather than the no-simulators
error. -/
theorem requested_udid_bypasses_selection (sel sel' : Selector) (cat : Catalog)
    (u : String) :
    (selectTargetDevice sel cat (some u)).1 = []
    ∧ selectTargetDevice sel cat (some u) = selectTargetDevice sel' cat (some u)
    ∧ (∀ e, (selectTargetDevice sel cat (some u)).2 = .error e →
        e = .unknownTarget u)
    ∧ selectTargetDevice sel ([] : Catalog) (some u)
        = ([], .error (.unknownTarget u)) := by
  refine ⟨?_, ?_, ?_, rfl⟩
  · cases hfind : findUdid cat u with
    | none => simp [selectTargetDevice, hfind]
    | some p => cases p with
      | mk v d => simp [selectTargetDevice, hfind]
  · cases hfind : findUdid cat u with
    | none => simp [selectTargetDevice, hfind]
    | some p => cases p with
      | mk v d => simp [selectTargetDevice, hfind]
  · intro e he
    cases hfind : findUdid cat u with
    | none =>
        simp only [selectTargetDevice, hfind] at he
        exact (Except.error.injEq _ _).mp he.symm ▸ rfl
    | some p => cases p with
      | mk v d => simp [selectTargetDevice, hfind] at he

theorem requested_udid_bypasses_selection_witness :
    (ResolveError.unknownTarget "X" : ResolveError) = .unknownTarget "X" := by
  exact (requested_udid_bypasses_selection firstSelector firstSelector
    [("13.0", [("A", "iPhone 8")])] "X").2.2.1 (.unknownTarget "X") rfl

/-- C3: a catalog with exactly one runtime holding exactly one device
resolves with no prompt at all; and at each of the two stages the
interactive selector is invoked if and only if that stage offers more than
one choice. -/
theorem auto_selection_cardinality (sel : Selector) :
    (∀ (v u n : String),
        selectTargetDevice sel [(v, [(u, n)])] none = ([], .ok (u, v, n)))
    ∧ (∀ (cat : Catalog), (runtimeStage sel cat).1 ≠ [] ↔ 1 < cat.length)
    ∧ (∀ (v : String) (devs : Devices),
        (deviceStage sel v devs).1 ≠ [] ↔ 1 < devs.length) := by
  refine ⟨?_, ?_, ?_⟩
  · intro v u n
    simp [selectTargetDevice, runtimeStage, deviceStage, List.lookup, List.headI]
  · intro cat
    unfold runtimeStage
    split_ifs with h1 h2 <;> simp <;> omega
  · intro v devs
    unfold deviceStage
    split_ifs with h1 h2 <;> simp <;> omega

theorem auto_selection_cardinality_witness :
    selectTargetDevice firstSelector [("13.0", [("UDID-1", "iPhone 11")])] none
        = ([], .ok ("UDID-1", "13.0", "iPhone 11"))
    ∧ (runtimeStage firstSelector
        [("13.0", []), ("14.0", [])]).1 ≠ [] := by
  refine ⟨(auto_selection_cardinality firstSelector).1 "13.0" "UDID-1" "iPhone 11", ?_⟩
  exact ((auto_selection_cardinality firstSelector).2.1
    [("13.0", []), ("14.0", [])]).mpr (by decide)

/-- C6: with no requested udid, an empty catalog makes `run_app` fail with
the no-simulators error before issuing any external command or prompt; and
when the runtime stage selects a version whose device mapping is empty,
resolution fails with the no-devices error naming that version. -/
theorem no_targets_available :
    (∀ (sel : Selector) (w : World) (app : App) (pp : String) (fuel : Nat),
        w.simulators = [] →
        run_app sel w app pp none fuel = ([], [], .err (.resolve .noRuntimes)))
    ∧ (∀ (sel : Selector) (cat : Catalog) (v : String) (ps : List Prompt),
        runtimeStage sel cat = (ps, .ok v) → List.lookup v cat = some [] →
        selectTargetDevice sel cat none = (ps, .error (.noDevices v))) := by
  constructor
  · intro sel w app pp fuel hsim
    simp [run_app, selectTargetDevice, runtimeStage, hsim]
  · intro sel cat v ps hrt hlk
    simp [selectTargetDevice, hrt, hlk, deviceStage]

theorem no_targets_available_witness :
    run_app firstSelector
        { simulators := []
          deviceStates := fun _ => .booted
          bootExit := true
          openExit := true
          uninstallExit := true
          installExit := true
          launchExit := true }
        { name := "demo", bundle := "com.example", formalName := "Demo" }
        "ios" none 3
      = ([], [], .err (.resolve .noRuntimes))
    ∧ selectTargetDevice firstSelector [("13.0", [])] none
      = ([], .error (.noDevices "13.0")) := by
  constructor
  · exact no_targets_available.1 firstSelector _ _ "ios" 3 rfl
  · exact no_targets_available.2 firstSelector [("13.0", [])] "13.0" [] rfl rfl

/-! ### Claim theorems: device lifecycle and run pipeline -/

@[simp]
theorem isBoot_filter_replicate (n : Nat) (u : String) :
    (List.replicate n (Cmd.getDeviceState u)).filter Cmd.isBoot = [] :=
  filter_replicate_of_neg _ _ rfl n

@[simp]
theorem afterBoot_filter_replicate (n : Nat) (u : String) :
    (List.replicate n (Cmd.getDeviceState u)).filter Cmd.afterBoot = [] :=
  filter_replicate_of_neg _ _ rfl n

@[simp]
theorem isInstallApp_filter_replicate (n : Nat) (u : String) :
    (List.replicate n (Cmd.getDeviceState u)).filter Cmd.isInstallApp = [] :=
  filter_replicate_of_neg _ _ rfl n

/-- C7: the boot-wait loop re-queries the device state while it is neither
`SHUTDOWN` nor `BOOTED`; it stops exactly at the first query that returns a
stable state, and since it has no timeout, on a state sequence that never
stabilizes it runs forever — it returns nothing no matter how much fuel the
model grants it. -/
theorem poll_loop_unbounded (states : Nat → DeviceState) :
    ((∀ i, stableState (states i) = false) →
      ∀ (fuel start : Nat), pollDeviceState states fuel start = none)
    ∧ (∀ (fuel start i : Nat) (s : DeviceState),
        pollDeviceState states fuel start = some (i, s) →
        s = states i ∧ stableState (states i) = true ∧ start ≤ i ∧
          ∀ j, start ≤ j → j < i → stableState (states j) = false)
    ∧ (∀ (fuel start : Nat), 0 < fuel → stableState (states start) = true →
        pollDeviceState states fuel start = some (start, states start)) := by
  refine ⟨?_, ?_, ?_⟩
  · intro hall fuel
    induction fuel with
    | zero => intro start; rfl
    | succ fuel ih =>
        intro start
        simp only [pollDeviceState, hall start, Bool.false_eq_true, if_false]
        exact ih (start + 1)
  · intro fuel
    induction fuel with
    | zero => intro start i s h; exact absurd h (by simp [pollDeviceState])
    | succ fuel ih =>
        intro start i s h
        by_cases hs : stableState (states start) = true
        · simp only [pollDeviceState, hs, if_true] at h
          obtain ⟨hi, hsv⟩ := Prod.mk.injEq .. ▸ (Option.some.injEq _ _).mp h
          subst hi
          exact ⟨hsv.symm, hs, Nat.le_refl _, fun j h1 h2 => absurd h1 (by omega)⟩
        · simp only [pollDeviceState, hs, if_false] at h
          obtain ⟨h1, h2, h3, h4⟩ := ih (start + 1) i s h
          refine ⟨h1, h2, by omega, fun j hj1 hj2 => ?_⟩
          rcases Nat.eq_or_lt_of_le hj1 with hj | hj
          · subst hj; simpa using hs
          · exact h4 j hj hj2
  · intro fuel start hf hs
    cases fuel with
    | zero => exact absurd hf (by omega)
    | succ fuel => simp [pollDeviceState, hs]

theorem poll_loop_unbounded_witness :
    pollDeviceState (fun _ => DeviceState.booting) 5 0 = none
    ∧ pollDeviceState (fun _ => DeviceState.booted) 1 0
        = some (0, DeviceState.booted) := by
  constructor
  · exact (poll_loop_unbounded (fun _ => DeviceState.booting)).1
      (fun i => rfl) 5 0
  · exact (poll_loop_unbounded (fun _ => DeviceState.booted)).2.2 1 0
      (by omega) rfl

/-- C4: once the polled state has stabilized, `run_app` issues no boot
command when the state is `BOOTED`, issues exactly one boot command when the
state is `SHUTDOWN`, and when that boot command fails it raises the
boot error naming the device and iOS version with no further external
command after the boot attempt. -/
theorem boot_step (sel : Selector) (w : World) (app : App) (pp : String)
    (req : Option String) (fuel : Nat) (ps : List Prompt)
    (udid v d : String) (i : Nat) (st : DeviceState)
    (hres : selectTargetDevice sel w.simulators req = (ps, .ok (udid, v, d)))
    (hpoll : pollDeviceState w.deviceStates fuel 0 = some (i, st)) :
    (st = DeviceState.booted →
      ((run_app sel w app pp req fuel).2.1.filter Cmd.isBoot) = [])
    ∧ (st = DeviceState.shutdown →
      ((run_app sel w app pp req fuel).2.1.filter Cmd.isBoot) = [Cmd.boot udid])
    ∧ (st = DeviceState.shutdown → w.bootExit = false →
      run_app sel w app pp req fuel
        = (ps, List.replicate (i + 1) (Cmd.getDeviceState udid) ++ [Cmd.boot udid],
            .err (.deviceBoot d v))) := by
  have htail : ∀ (udid' v' d' : String),
      ((runSteps (pipelineSteps w app pp udid' v' d')).1.filter Cmd.isBoot) = [] := by
    intro udid' v' d'
    refine runSteps_filter_none Cmd.isBoot _ ?_
    intro s hs
    simp only [pipelineSteps, List.mem_cons, List.not_mem_nil, or_false] at hs
    rcases hs with h | h | h | h <;> subst h <;> rfl
  refine ⟨?_, ?_, ?_⟩
  · intro hst
    subst hst
    simp only [run_app, hres, hpoll]
    rw [if_neg (by simp)]
    simp [List.filter_append, htail]
  · intro hst
    subst hst
    simp only [run_app, hres, hpoll]
    split_ifs with h
    · simp [List.filter_append, List.filter, Cmd.isBoot]
    · simp [List.filter_append, List.filter, Cmd.isBoot, htail]
  · intro hst hboot
    subst hst
    simp only [run_app, hres, hpoll]
    split_ifs with h
    · rfl
    · exact absurd ⟨trivial, hboot⟩ h

/-- A world used to instantiate theorems: a one-runtime, one-device catalog
whose device is shut down, with the boot command failing and every other
command succeeding. -/
def bootFailWorld : World where
  simulators := [("13.0", [("UDID-1", "iPhone 11")])]
  deviceStates := fun _ => .shutdown
  bootExit := false
  openExit := true
  uninstallExit := true
  installExit := true
  launchExit := true

/-- An app configuration used to instantiate theorems. -/
def demoApp : App where
  name := "demo"
  bundle := "com.example"
  formalName := "Demo"

/-- A world whose open-simulator command fails on a booted one-device
catalog, with every other command succeeding. -/
def openFailWorld : World where
  simulators := [("13.0", [("UDID-1", "iPhone 11")])]
  deviceStates := fun _ => .booted
  bootExit := true
  openExit := false
  uninstallExit := true
  installExit := true
  launchExit := true

theorem boot_step_witness :
    run_app firstSelector bootFailWorld demoApp "ios" none 1
      = ([], List.replicate 1 (Cmd.getDeviceState "UDID-1") ++ [Cmd.boot "UDID-1"],
          .err (.deviceBoot "iPhone 11" "13.0")) :=
  (boot_step firstSelector bootFailWorld demoApp "ios" none 1 []
    "UDID-1" "13.0" "iPhone 11" 0 DeviceState.shutdown rfl rfl).2.2 rfl rfl

/-- The full trace of external commands a completely successful `run_app`
issues after i + 1 state queries: the optional boot, then open, uninstall,
install and launch in that order. -/
def fullRunTrace (app : App) (pp udid : String) (i : Nat) (st : DeviceState) :
    List Cmd :=
  List.replicate (i + 1) (Cmd.getDeviceState udid)
    ++ (if st = DeviceState.shutdown then [Cmd.boot udid] else [])
    ++ [Cmd.openSim udid, Cmd.uninstall udid (appIdentifier app),
        Cmd.installApp udid (binary_path pp app),
        Cmd.launch udid (appIdentifier app)]

/-- C5: `run_app` performs its steps in the fixed order resolve, poll/boot,
open, uninstall, install, launch, and any step's failure immediately aborts
all remaining steps: a resolution failure aborts with no external command at
all, every trace is a prefix of the canonical ordered full trace, a boot
failure leaves no open/uninstall/install/launch command in the trace, an
open failure ends the trace at the open command, an uninstall failure at
the uninstall command, an install failure at the install command, a launch
failure at the launch command — each with the matching error — and only a
run that issued the whole pipeline returns success. -/
theorem pipeline_fail_fast (sel : Selector) (w : World) (app : App)
    (pp : String) (req : Option String) (fuel : Nat) :
    (∀ (ps : List Prompt) (e : ResolveError),
        selectTargetDevice sel w.simulators req = (ps, .error e) →
        run_app sel w app pp req fuel = (ps, [], .err (.resolve e)))
    ∧ (∀ (ps : List Prompt) (udid v d : String) (i : Nat) (st : DeviceState),
        selectTargetDevice sel w.simulators req = (ps, .ok (udid, v, d)) →
        pollDeviceState w.deviceStates fuel 0 = some (i, st) →
        (∃ t, (run_app sel w app pp req fuel).2.1 ++ t
            = fullRunTrace app pp udid i st)
        ∧ (st = DeviceState.shutdown → w.bootExit = false →
            (run_app sel w app pp req fuel).2.1.filter Cmd.afterBoot = [])
        ∧ (¬(st = DeviceState.shutdown ∧ w.bootExit = false) →
            (w.openExit = false →
              (run_app sel w app pp req fuel).2.1
                = List.replicate (i + 1) (Cmd.getDeviceState udid)
                  ++ (if st = DeviceState.shutdown then [Cmd.boot udid] else [])
                  ++ [Cmd.openSim udid]
              ∧ (run_app sel w app pp req fuel).2.2
                  = .err (.simulatorOpen d v))
            ∧ (w.openExit = true → w.uninstallExit = false →
              (run_app sel w app pp req fuel).2.1
                = List.replicate (i + 1) (Cmd.getDeviceState udid)
                  ++ (if st = DeviceState.shutdown then [Cmd.boot udid] else [])
                  ++ [Cmd.openSim udid, Cmd.uninstall udid (appIdentifier app)]
              ∧ (run_app sel w app pp req fuel).2.2
                  = .err (.uninstallFailed app.name))
            ∧ (w.openExit = true → w.uninstallExit = true →
                w.installExit = false →
              (run_app sel w app pp req fuel).2.1
                = List.replicate (i + 1) (Cmd.getDeviceState udid)
                  ++ (if st = DeviceState.shutdown then [Cmd.boot udid] else [])
                  ++ [Cmd.openSim udid, Cmd.uninstall udid (appIdentifier app),
                      Cmd.installApp udid (binary_path pp app)]
              ∧ (run_app sel w app pp req fuel).2.2
                  = .err (.installFailed app.name))
            ∧ (w.openExit = true → w.uninstallExit = true →
                w.installExit = true → w.launchExit = false →
              (run_app sel w app pp req fuel).2.1
                = fullRunTrace app pp udid i st
              ∧ (run_app sel w app pp req fuel).2.2
                  = .err (.launchFailed app.name)))
        ∧ ((run_app sel w app pp req fuel).2.2 = .ok →
            (run_app sel w app pp req fuel).2.1 = fullRunTrace app pp udid i st)) := by
  have hmap : ∀ (udid' v' d' : String),
      ((pipelineSteps w app pp udid' v' d').map fun s => s.1)
        = [Cmd.openSim udid', Cmd.uninstall udid' (appIdentifier app),
           Cmd.installApp udid' (binary_path pp app),
           Cmd.launch udid' (appIdentifier app)] := fun _ _ _ => rfl
  constructor
  · intro ps e hres
    simp [run_app, hres]
  · intro ps udid v d i st hres hpoll
    refine ⟨?_, ?_, ?_, ?_⟩
    · simp only [run_app, hres, hpoll]
      split_ifs with h1 h2
      · refine ⟨[Cmd.openSim udid, Cmd.uninstall udid (appIdentifier app),
          Cmd.installApp udid (binary_path pp app),
          Cmd.launch udid (appIdentifier app)], ?_⟩
        simp [fullRunTrace, h1.1]
      · obtain ⟨t, ht⟩ := runSteps_prefix_full (pipelineSteps w app pp udid v d)
        refine ⟨t, ?_⟩
        simp [fullRunTrace, List.append_assoc, ht, hmap, h2]
      · obtain ⟨t, ht⟩ := runSteps_prefix_full (pipelineSteps w app pp udid v d)
        refine ⟨t, ?_⟩
        simp [fullRunTrace, List.append_assoc, ht, hmap, h2]
    · intro hst hboot
      subst hst
      simp only [run_app, hres, hpoll]
      split_ifs with h
      · simp [List.filter_append, List.filter, Cmd.afterBoot,
          Cmd.isOpenSim, Cmd.isUninstall, Cmd.isInstallApp, Cmd.isLaunch,
          Cmd.isBoot]
      · exact absurd ⟨trivial, hboot⟩ h
    · intro hnb
      simp only [run_app, hres, hpoll]
      rw [if_neg hnb]
      refine ⟨?_, ?_, ?_, ?_⟩
      · intro ho
        constructor
        · simp [pipelineSteps, runSteps, ho, List.append_assoc]
        · simp [pipelineSteps, runSteps, ho]
      · intro ho hu
        constructor
        · simp [pipelineSteps, runSteps, ho, hu, List.append_assoc]
        · simp [pipelineSteps, runSteps, ho, hu]
      · intro ho hu hi2
        constructor
        · simp [pipelineSteps, runSteps, ho, hu, hi2, List.append_assoc]
        · simp [pipelineSteps, runSteps, ho, hu, hi2]
      · intro ho hu hi2 hl
        constructor
        · simp [pipelineSteps, runSteps, ho, hu, hi2, hl, fullRunTrace,
            List.append_assoc]
        · simp [pipelineSteps, runSteps, ho, hu, hi2, hl]
    · intro hok
      simp only [run_app, hres, hpoll] at hok ⊢
      split_ifs at hok ⊢ with hbf h2
      all_goals
        first
          | (simp at hok; done)
          | (cases htr : (runSteps (pipelineSteps w app pp udid v d)).2 with
             | some e => rw [htr] at hok; simp at hok
             | none =>
                 have hfull := runSteps_none_full _ htr
                 simp [hfull, fullRunTrace, hmap, List.append_assoc, h2])

theorem pipeline_fail_fast_witness :
    ((run_app firstSelector bootFailWorld demoApp "ios" none 1).2.1.filter
        Cmd.afterBoot = [])
    ∧ (run_app firstSelector openFailWorld demoApp "ios" none 1).2.1
        = [Cmd.getDeviceState "UDID-1", Cmd.openSim "UDID-1"]
    ∧ (run_app firstSelector openFailWorld demoApp "ios" none 1).2.2
        = .err (.simulatorOpen "iPhone 11" "13.0") := by
  have hb := ((pipeline_fail_fast firstSelector bootFailWorld demoApp "ios"
      none 1).2 [] "UDID-1" "13.0" "iPhone 11" 0 DeviceState.shutdown
      rfl rfl).2.1 rfl rfl
  have ho := (((pipeline_fail_fast firstSelector openFailWorld demoApp "ios"
      none 1).2 [] "UDID-1" "13.0" "iPhone 11" 0 DeviceState.booted
      rfl rfl).2.2.1 (by simp)).1 rfl
  exact ⟨hb, by simpa using ho.1, ho.2⟩

/-- A world whose uninstall command exits non-zero — as the external
toolchain would if it reported "app not installed" as an error — while every
other command succeeds on a booted one-device catalog. -/
def notInstalledWorld : World where
  simulators := [("13.0", [("UDID-1", "iPhone 11")])]
  deviceStates := fun _ => .booted
  bootExit := true
  openExit := true
  uninstallExit := false
  installExit := true
  launchExit := true

/-- The same world with the uninstall command succeeding. -/
def uninstallOkWorld : World :=
  { notInstalledWorld with uninstallExit := true }

/-- C1 counterexample: when the external uninstall command exits non-zero —
which is exactly how the toolchain would signal "app not installed" as an
error — `run_app` raises the uninstall error and never issues the install
command, contradicting the claim that this condition is treated as success
and the orchestrator proceeds to the install step. -/
theorem uninstall_not_installed_counterexample :
    (run_app firstSelector notInstalledWorld demoApp "ios" none 1).2.2
        = .err (.uninstallFailed "demo")
    ∧ ((run_app firstSelector notInstalledWorld demoApp "ios" none 1).2.1.filter
        Cmd.isInstallApp) = [] :=
  ⟨rfl, rfl⟩

/-- C1 (amended): `run_app` treats every non-zero exit of the uninstall
command — including one meaning "app not installed" — as an uninstall error
and aborts before the install step; it performs no normalization of a
not-installed failure.  Uninstalling an absent app succeeds only because the
external toolchain itself exits zero in that case, and whenever the
uninstall command exits zero the orchestrator proceeds to the install
step. -/
theorem uninstall_failure_aborts (sel : Selector) (w : World) (app : App)
    (pp : String) (req : Option String) (fuel : Nat) (ps : List Prompt)
    (udid v d : String) (i : Nat) (st : DeviceState)
    (hres : selectTargetDevice sel w.simulators req = (ps, .ok (udid, v, d)))
    (hpoll : pollDeviceState w.deviceStates fuel 0 = some (i, st))
    (hboot : w.bootExit = true) (hopen : w.openExit = true) :
    (w.uninstallExit = false →
      (run_app sel w app pp req fuel).2.2 = .err (.uninstallFailed app.name)
      ∧ ((run_app sel w app pp req fuel).2.1.filter Cmd.isInstallApp) = [])
    ∧ (w.uninstallExit = true →
      Cmd.installApp udid (binary_path pp app) ∈ (run_app sel w app pp req fuel).2.1) := by
  have hnb : ¬(st = DeviceState.shutdown ∧ w.bootExit = false) := by
    simp [hboot]
  constructor
  · intro hu
    simp only [run_app, hres, hpoll]
    rw [if_neg hnb]
    constructor
    · simp [pipelineSteps, runSteps, hopen, hu]
    · by_cases hst : st = DeviceState.shutdown <;>
        simp [pipelineSteps, runSteps, hopen, hu, hst, List.filter_append,
          List.filter, Cmd.isInstallApp]
  · intro hu
    simp only [run_app, hres, hpoll]
    rw [if_neg hnb]
    cases hi2 : w.installExit <;>
      simp [pipelineSteps, runSteps, hopen, hu, hi2, List.mem_append]

theorem uninstall_failure_aborts_witness :
    Cmd.installApp "UDID-1" (binary_path "ios" demoApp)
      ∈ (run_app firstSelector uninstallOkWorld demoApp "ios" none 1).2.1 :=
  (uninstall_failure_aborts firstSelector uninstallOkWorld demoApp "ios" none 1
    [] "UDID-1" "13.0" "iPhone 11" 0 DeviceState.booted rfl rfl rfl rfl).2 rfl

/-! ### Claim theorems: build driver -/

/-- C8: once a target is resolved, `build_app` performs exactly one external
build invocation whose fixed argument vector selects the Debug
configuration, the x86_64 architecture, the iphonesimulator SDK and a
destination string naming the resolved device and iOS version; any non-zero
exit status makes it fail with the build error naming the app, with no
retry. -/
theorem build_invocation (sel : Selector) (cat : Catalog) (req : Option String)
    (app : App) (pp : String) (be : Bool) (ps : List Prompt) (udid v d : String)
    (hres : selectTargetDevice sel cat req = (ps, .ok (udid, v, d))) :
    (build_app sel cat req app pp be).2.1 = [xcodebuildArgs pp app d v]
    ∧ "-configuration" ∈ xcodebuildArgs pp app d v
    ∧ "Debug" ∈ xcodebuildArgs pp app d v
    ∧ "-arch" ∈ xcodebuildArgs pp app d v
    ∧ "x86_64" ∈ xcodebuildArgs pp app d v
    ∧ "-sdk" ∈ xcodebuildArgs pp app d v
    ∧ "iphonesimulator" ∈ xcodebuildArgs pp app d v
    ∧ ("platform=\"iOS Simulator,name=" ++ d ++ ",OS=" ++ v ++ "\"")
        ∈ xcodebuildArgs pp app d v
    ∧ (be = false →
        (build_app sel cat req app pp be).2.2 = .error (.buildFailed app.name))
    ∧ (be = true → (build_app sel cat req app pp be).2.2 = .ok ()) := by
  refine ⟨?_, ?_, ?_, ?_, ?_, ?_, ?_, ?_, ?_, ?_⟩
  · simp only [build_app, hres]
    split_ifs <;> rfl
  all_goals try simp [xcodebuildArgs]
  · intro hbe
    simp [build_app, hres, hbe]
  · intro hbe
    simp [build_app, hres, hbe]

theorem build_invocation_witness :
    (build_app firstSelector [("13.0", [("UDID-1", "iPhone 11")])] none
        demoApp "ios" false).2.2 = .error (.buildFailed "demo") :=
  (build_invocation firstSelector [("13.0", [("UDID-1", "iPhone 11")])] none
    demoApp "ios" false [] "UDID-1" "13.0" "iPhone 11" rfl).2.2.2.2.2.2.2.2.1 rfl

/-- A catalog with two iOS versions, used to instantiate theorems. -/
def twoVersionsCatalog : Catalog :=
  [("13.0", [("A", "iPhone 8")]), ("14.0", [("B", "iPhone 11")])]

/-- C10: `build_app` performs target resolution itself through the same
`select_target_device` routine as `run_app`: its prompts are exactly the
resolver's prompts, resolver errors propagate to the build outcome with no
build invocation, and `run_app` likewise re-resolves against its own
catalog, so build and run resolve their targets independently; concretely a
build can fail with the no-simulators or invalid-UDID error or prompt the
interactive selector. -/
theorem build_performs_resolution (sel : Selector) (cat : Catalog)
    (req : Option String) (app : App) (pp : String) (be : Bool) :
    (build_app sel cat req app pp be).1 = (selectTargetDevice sel cat req).1
    ∧ (∀ ps e, selectTargetDevice sel cat req = (ps, .error e) →
        build_app sel cat req app pp be = (ps, [], .error (.resolve e)))
    ∧ (∀ (w : World) (fuel : Nat),
        (run_app sel w app pp req fuel).1
          = (selectTargetDevice sel w.simulators req).1)
    ∧ (build_app firstSelector [] none app pp be).2.2
        = .error (.resolve .noRuntimes)
    ∧ (build_app firstSelector [] (some "X") app pp be).2.2
        = .error (.resolve (.unknownTarget "X"))
    ∧ (build_app firstSelector twoVersionsCatalog none app pp be).1 ≠ [] := by
  refine ⟨?_, ?_, ?_, ?_, ?_, ?_⟩
  · rcases h : selectTargetDevice sel cat req with ⟨ps, r⟩
    cases r with
    | error e => simp [build_app, h]
    | ok t =>
        obtain ⟨udid, v, d⟩ := t
        simp only [build_app, h]
        split_ifs <;> rfl
  · intro ps e h
    simp [build_app, h]
  · intro w fuel
    rcases h : selectTargetDevice sel w.simulators req with ⟨ps, r⟩
    cases r with
    | error e => simp [run_app, h]
    | ok t =>
        obtain ⟨udid, v, d⟩ := t
        simp only [run_app, h]
        cases hp : pollDeviceState w.deviceStates fuel 0 with
        | none => rfl
        | some p =>
            obtain ⟨i, st⟩ := p
            by_cases hc : st = DeviceState.shutdown ∧ w.bootExit = false <;>
              simp [hc]
  · rfl
  · rfl
  · cases be <;>
      simp [build_app, selectTargetDevice, runtimeStage, twoVersionsCatalog,
        deviceStage, firstSelector, List.lookup]

theorem build_performs_resolution_witness :
    build_app firstSelector [] (some "X") demoApp "ios" true
      = ([], [], .error (.resolve (.unknownTarget "X"))) :=
  (build_performs_resolution firstSelector [] (some "X") demoApp "ios" true).2.1
    [] (.unknownTarget "X") rfl

end IOSXcode
